import Mathlib

/-!
Verification of `src/accelerate/utils/megatron_lm.py` (Megatron-LM adapter of
the `accelerate` training-orchestration library).

The file is a shallow embedding: each Python function relevant to the claims is
translated into an executable Lean definition (tensors become functions over
`Fin`-indexed shapes or lists, Python exceptions become `Except`/`Option`,
the mutable `args` namespace becomes an explicit record threaded through the
state-passing translation).  Theorems about those definitions settle the
claims of the specification.
-/

namespace MegatronLM

/-! ## Null-iterator stand-in (`_handle_megatron_data_iterator`, lines 284-299)

A batch is a mapping from field names to values; the stand-in only ever
produces the empty mapping, so the value type is irrelevant and kept abstract
as `String × Int` association lists. -/

/-- A Python dict batch, modelled as an association list. -/
abbrev Batch : Type := List (String × Int)

/-- `DummyMegatronDataloader.__next__` (line 289-290): returns `{}` and never
raises `StopIteration`.  A Python iterator's `next` is modelled as
`σ → Option (Batch × σ)`, `none` meaning `StopIteration`; the dummy iterator
is stateless. -/
def DummyMegatronDataloader.next (s : Unit) : Option (Batch × Unit) :=
  some (([] : List (String × Int)), s)

/-- Outcome of the `n`-th consecutive `next` call on the dummy dataloader:
`none` would mean some call among the first `n+1` raised `StopIteration`. -/
def DummyMegatronDataloader.iterate : Nat → Option Batch
  | 0 =>
    (DummyMegatronDataloader.next ()).map Prod.fst
  | n + 1 =>
    match DummyMegatronDataloader.next () with
    | none => none
    | some (_, _) =>
      match DummyMegatronDataloader.iterate n with
      | none => none
      | some b => some b

/-- `_handle_megatron_data_iterator` (lines 292-299): the broadcast of the
source rank's emptiness flag is modelled as the boolean input
`is_src_data_iterator_empty`; the local iterator is `none` when absent.
Returns `none` to mean "the original (possibly absent) iterator is kept",
`some ()` to mean "the dummy stand-in is substituted". -/
def handle_megatron_data_iterator (is_src_data_iterator_empty : Bool)
    (data_iterator_present : Bool) : Option Unit :=
  let is_data_iterator_empty := ¬ data_iterator_present
  if ¬ is_src_data_iterator_empty ∧ is_data_iterator_empty then some ()
  else none

/-! ## T5 self-attention mask (`T5TrainStep.attn_mask_postprocess`, lines 739-750)

A 2-D float tensor of shape `[B,S]` is a function `Fin B → Fin S → ℚ`; the
result of shape `[B,S,S]` is `Fin B → Fin S → Fin S → Bool`.  The
`unsqueeze`/broadcast steps of the source are kept as separate definitions. -/

/-- `attention_mask.unsqueeze(1)` broadcast along dim 1: entry `[b, i, j]`
of the `[b, 1, s]` tensor once broadcast to `[b, s, s]`. -/
def attention_mask_b1s (B S : Nat) (attention_mask : Fin B → Fin S → ℚ)
    (b : Fin B) (_i j : Fin S) : ℚ :=
  attention_mask b j

/-- `attention_mask.unsqueeze(2)` broadcast along dim 2: entry `[b, i, j]`
of the `[b, s, 1]` tensor once broadcast to `[b, s, s]`. -/
def attention_mask_bs1 (B S : Nat) (attention_mask : Fin B → Fin S → ℚ)
    (b : Fin B) (i _j : Fin S) : ℚ :=
  attention_mask b i

/-- `attention_mask_b1s * attention_mask_bs1`, the `[b, s, s]` product. -/
def attention_mask_bss (B S : Nat) (attention_mask : Fin B → Fin S → ℚ)
    (b : Fin B) (i j : Fin S) : ℚ :=
  attention_mask_b1s B S attention_mask b i j * attention_mask_bs1 B S attention_mask b i j

/-- `T5TrainStep.attn_mask_postprocess` (lines 740-750): the returned
`extended_attention_mask = attention_mask_bss < 0.5`; a `true` entry marks a
position that is masked OUT (Megatron convention), a `false` entry an allowed
position. -/
def T5TrainStep.attn_mask_postprocess (B S : Nat)
    (attention_mask : Fin B → Fin S → ℚ) (b : Fin B) (i j : Fin S) : Bool :=
  decide (attention_mask_bss B S attention_mask b i j < 1/2)

/-! ## GPT generic-mode batch decoder
(`GPTTrainStep.get_batch_func.get_batch_transformer`, lines 640-654)

`input_ids` of shape `[B, L]` is a list of `B` rows of integer token ids.
The device move (`send_to_device`) is a no-op in the embedding.  The function
appends one end-of-document token per row, then slices
`labels = tokens_[:, 1:]` and `tokens = tokens_[:, :-1]`.  The downstream
mask/position-id construction (`get_ltor_masks_and_position_ids`) is external
to this file and not claimed, so only the `(tokens, labels)` pair is kept. -/

/-- `tokens_ = torch.concat([input_ids, padding], dim=1)` with
`padding = eod_token` in every row (lines 645-647). -/
def gpt_tokens_ext (eod_token : Int) (input_ids : List (List Int)) : List (List Int) :=
  input_ids.map (fun row => row ++ [eod_token])

/-- `GPTTrainStep...get_batch_transformer` (lines 640-654), restricted to the
`(tokens, labels)` pair it constructs: `tokens = tokens_[:, :-1]` and
`labels = tokens_[:, 1:]` on the eod-extended tensor. -/
def get_batch_transformer (eod_token : Int) (input_ids : List (List Int)) :
    List (List Int) × List (List Int) :=
  let tokens_ := gpt_tokens_ext eod_token input_ids
  (tokens_.map List.dropLast, tokens_.map (List.drop 1))

/-! ## Dataloader shim (`prepare_data_loader`, lines 302-364)

The mutable `args` namespace is modelled as an explicit record holding the
fields this function reads or writes. -/

/-- The fields of the global Megatron `args` namespace used by
`prepare_data_loader`. -/
structure DataArgs where
  megatron_dataset_flag : Bool
  micro_batch_size : Nat
  num_micro_batches : Nat
  consumed_samples : Option (Nat × Nat × Nat)
  consumed_train_samples : Nat
  consumed_valid_samples : Nat
  consumed_test_samples : Nat
  deriving Repr, DecidableEq

/-- The shape-relevant configuration of the incoming generic dataloader:
whether `batch_size` is set, and whether its `sampler` is a `BatchSampler`
(the three branches of lines 310-320). -/
inductive DataloaderKind
  | withBatchSize (batch_size : Nat)
  | batchSamplerAsSampler (batch_size : Nat)
  | withBatchSampler (batch_size : Nat)
  deriving Repr, DecidableEq

/-- The configuration of the dataloader rebuilt by the generic branch, as
handed to the inner `prepare_data_loader` of `data_loader.py`: where the
effective batch size ended up, and the `split_batches` flag (line 331). -/
structure PreparedDataloader where
  kind : DataloaderKind
  split_batches : Bool
  deriving Repr, DecidableEq

/-- Generic (non-native-dataset) branch of `prepare_data_loader`
(lines 305-335): the rebuilt dataloader's batch size — whether set directly
as `batch_size`, on the `BatchSampler` standing as `sampler`, or on the
`batch_sampler` — is forced to `micro_batch_size * num_micro_batches`, and
the inner preparation is called with `split_batches=False`. -/
def prepare_data_loader_generic (args : DataArgs) (dataloader : DataloaderKind) :
    PreparedDataloader :=
  let micro_batch_size := args.micro_batch_size * args.num_micro_batches
  let kind :=
    match dataloader with
    | .withBatchSize _ => DataloaderKind.withBatchSize micro_batch_size
    | .batchSamplerAsSampler _ => DataloaderKind.batchSamplerAsSampler micro_batch_size
    | .withBatchSampler _ => DataloaderKind.withBatchSampler micro_batch_size
  { kind := kind, split_batches := false }

/-- The effective batch size configured on a (rebuilt) dataloader, wherever
it is stored. -/
def DataloaderKind.effective_batch_size : DataloaderKind → Nat
  | .withBatchSize n => n
  | .batchSamplerAsSampler n => n
  | .withBatchSampler n => n

/-- Native-mode branch of `prepare_data_loader` (lines 336-364), as a state
transformer on `args`.  `args.micro_batch_size` is multiplied by
`args.num_micro_batches` (line 345), the external iterator builders run (they
read but do not write `micro_batch_size`, so the build step is the identity
on these fields), and it is divided back with Python floor division `//`
(line 354).  Lines 337-344 fill the consumed-sample counters. -/
def prepare_data_loader_native (args : DataArgs) : DataArgs :=
  let args :=
    match args.consumed_samples with
    | some (t, v, te) =>
      { args with consumed_train_samples := t, consumed_valid_samples := v,
                  consumed_test_samples := te }
    | none =>
      { args with consumed_train_samples := 0, consumed_valid_samples := 0,
                  consumed_test_samples := 0 }
  let args := { args with micro_batch_size := args.micro_batch_size * args.num_micro_batches }
  -- dataloader.build_train_valid_test_data_iterators(accelerator) runs here
  let args := { args with micro_batch_size := args.micro_batch_size / args.num_micro_batches }
  args

/-! ## Optimizer wrapper and `train_step`
(`MegatronLMOptimizerWrapper.step_was_skipped`, lines 378-381;
`MegatronEngine.train_step`, lines 1034-1055)

The underlying engine's fused `train_step` routine is external; its return
value — in particular the `skipped_iter` indicator, an integer that is `1`
when gradient overflow made the engine skip the update — is an input of the
embedding. -/

/-- The state of the Megatron optimizer object that this adapter touches:
the `skipped_iter` attribute it installs (`True`/`False` after line 1053,
`False` at engine construction, line 955). -/
structure OptimizerState where
  skipped_iter : Bool
  deriving Repr, DecidableEq

/-- Return value of the external engine's `train_step` routine
(line 1044): the reduced loss dictionary, the skipped-iteration indicator,
the gradient norm, and the zero-gradient count. -/
structure ExternTrainStepResult where
  loss_reduced : Batch
  skipped_iter : Int
  grad_norm : ℚ
  num_zeros_in_grad : Nat

/-- `MegatronEngine.train_step` (lines 1034-1055), restricted to its effect
on the optimizer state and its return value: after calling the external
routine it sets `self.optimizer.skipped_iter = skipped_iter == 1`
(line 1053) and returns the external results unchanged. -/
def MegatronEngine.train_step (opt : OptimizerState) (ext : ExternTrainStepResult) :
    OptimizerState × (Batch × Int × ℚ × Nat) :=
  let opt := { opt with skipped_iter := ext.skipped_iter == 1 }
  (opt, (ext.loss_reduced, ext.skipped_iter, ext.grad_norm, ext.num_zeros_in_grad))

/-- `MegatronLMOptimizerWrapper.step_was_skipped` (lines 378-381): returns
`self.optimizer.skipped_iter`. -/
def MegatronLMOptimizerWrapper.step_was_skipped (opt : OptimizerState) : Bool :=
  opt.skipped_iter

/-! ## Checkpoint save/load
(`MegatronEngine.save_checkpoint`, lines 1186-1198;
`MegatronEngine.load_checkpoint`, lines 1200-1211)

Both delegate to the external engine's `save_checkpoint`/`load_checkpoint`
entry points, which are not part of this repository. -/

/-- Modelled from the spec: the external engine's checkpoint storage, missing
from this repository.  Per §4.5 and §8, the engine's `save_checkpoint` entry
point persists, keyed by the configured checkpoint path, the iteration count
and the accumulated floating-point-operation counter it is handed, and its
`load_checkpoint` entry point returns exactly the recorded pair for that
path (`none` when no checkpoint exists there). -/
structure CheckpointStore where
  store : String → Option (Nat × Nat)

/-- The engine and `args` fields read or written by checkpoint save/load. -/
structure EngineCkptState where
  iteration : Nat
  num_floating_point_operations_so_far : Nat
  consumed_train_samples : Nat
  consumed_valid_samples : Nat
  fp16 : Bool
  save_path : Option String
  load_path : Option String

/-- `MegatronEngine.save_checkpoint` (lines 1186-1198): sets
`args.save = output_dir` and, between two barriers (rank-local no-ops in the
embedding), hands `self.iteration` and
`self.num_floating_point_operations_so_far` to the external save routine,
which records them for the configured path. -/
def MegatronEngine.save_checkpoint (e : EngineCkptState) (output_dir : String)
    (s : CheckpointStore) : EngineCkptState × CheckpointStore :=
  let e := { e with save_path := some output_dir }
  (e, ⟨fun p =>
        if p = output_dir then
          some (e.iteration, e.num_floating_point_operations_so_far)
        else s.store p⟩)

/-- `MegatronEngine.load_checkpoint` (lines 1200-1211): sets
`args.load = input_dir`, zeroes the consumed-sample counters, calls the
external load routine between two barriers, and installs the returned pair
as `self.iteration` and `self.num_floating_point_operations_so_far`.  The
`fp16 ∧ iteration == 0` branch calls `reload_model_params`, which does not
touch these counters.  `none` models the external routine finding no
checkpoint at the path. -/
def MegatronEngine.load_checkpoint (e : EngineCkptState) (input_dir : String)
    (s : CheckpointStore) : Option EngineCkptState :=
  let e := { e with load_path := some input_dir,
                    consumed_train_samples := 0, consumed_valid_samples := 0 }
  (s.store input_dir).map (fun r =>
    { e with iteration := r.1, num_floating_point_operations_so_far := r.2 })

/-! ## Evaluation step (`MegatronEngine.eval_step`, lines 1057-1095)

The external forward-only pipeline runner returns one loss dictionary per
microbatch; those dictionaries are the input of the embedding.  A dictionary
value is either a zero-dimensional scalar or a tensor with at least one
dimension (`len(shape) == 0` test, line 1090). -/

/-- A value of a per-microbatch loss dictionary: a zero-dimensional scalar
or a 1-D tensor (the two cases line 1090 distinguishes). -/
inductive TVal
  | scalar (x : ℚ)
  | tensor (xs : List ℚ)
  deriving Repr, DecidableEq

/-- Python dict lookup `d[key]`, `none` modelling a raised `KeyError`. -/
def dict_get (d : List (String × TVal)) (k : String) : Option TVal :=
  (d.find? (fun p => p.1 == k)).map Prod.snd

/-- `sum(losses_reduced_for_key)` in the scalar branch.  The engine returns
dictionaries of homogeneous kinds per key; a tensor appearing in the scalar
branch (where Python would broadcast-add) is outside every claim, and its
contribution here is irrelevant junk. -/
def sum_scalars (vs : List TVal) : ℚ :=
  (vs.map (fun v => match v with | .scalar x => x | .tensor _ => 0)).sum

/-- `torch.concat(losses_reduced_for_key)` in the tensor branch; a scalar in
this branch (where `torch.concat` would raise) is likewise outside every
claim. -/
def concat_tensors (vs : List TVal) : List ℚ :=
  vs.flatMap (fun v => match v with | .tensor xs => xs | .scalar x => [x])

/-- The per-key reduction of lines 1089-1093: the branch is chosen by the
shape of the FIRST microbatch's value; scalars are averaged
(`sum(...) / len(...)`), tensors concatenated.  The empty case is
unreachable (one value per microbatch, at least one microbatch). -/
def reduce_key (vs : List TVal) : TVal :=
  match vs with
  | [] => .scalar 0
  | v0 :: _ =>
    match v0 with
    | .scalar _ => .scalar (sum_scalars vs / vs.length)
    | .tensor _ => .tensor (concat_tensors vs)

/-- `MegatronEngine.eval_step` (lines 1057-1095), restricted to the mapping
it returns.  `is_pipeline_last_stage` is `mpu.is_pipeline_last_stage(...)`;
`loss_dicts` the list returned by the external forward-only runner.  The
outer `none` models a raised exception (`loss_dicts[0]` on an empty list, or
`x[key]` on a dictionary missing a key of the first one); side effects on
`args.consumed_valid_samples` and the CUDA cache are not part of any
claim. -/
def MegatronEngine.eval_step (is_pipeline_last_stage : Bool)
    (loss_dicts : List (List (String × TVal))) : Option (List (String × TVal)) :=
  if is_pipeline_last_stage then
    match loss_dicts with
    | [] => none
    | d0 :: rest =>
      (d0.map Prod.fst).mapM (fun k =>
        ((d0 :: rest).mapM (fun d => dict_get d k)).map
          (fun vs => (k, reduce_key vs)))
  else some []

/-! ## BERT fine-tuning loss function
(`BertTrainStep.get_loss_func.loss_func_finetune`, lines 549-561)

`loss_func_finetune` closes over the `num_labels` PARAMETER of
`get_loss_func` (line 529) but its second branch reads `self.num_labels`
(line 554), an ATTRIBUTE of the `BertTrainStep` object. -/

/-- The `num_labels` attribute of the `BertTrainStep` object.
`AbstractTrainStep.__init__` (lines 431-433) assigns `name`;
`BertTrainStep.__init__` (lines 453-463) assigns `get_batch`, `loss_func`,
`forward_step` and `model_output_class`; no statement in the module assigns
`num_labels` on the object (the only `num_labels` bindings are
`args.num_labels` and the closure parameter of line 529), so Python
attribute lookup finds nothing: `none`. -/
def BertTrainStep.self_num_labels : Option Int := none

/-- How far `loss_func_finetune` gets: raises `AttributeError`, or computes
a loss in one of the three branches (MSE regression, cross-entropy,
binary cross-entropy). -/
inductive FinetuneOutcome
  | attributeError
  | mseLoss
  | crossEntropyLoss
  | bceLoss
  deriving Repr, DecidableEq

/-- `loss_func_finetune` (lines 549-561), restricted to which branch runs.
`num_labels` is the closure parameter; `self_num_labels` the object
attribute read on line 554 (`none` = absent, raising `AttributeError`);
`labels_dtype_is_int` is `labels.dtype in (torch.long, torch.int)`.  Python
`and` evaluates `self.num_labels > 1` first, so the attribute lookup happens
before the dtype test and before any loss computation. -/
def loss_func_finetune (num_labels : Int) (self_num_labels : Option Int)
    (labels_dtype_is_int : Bool) : FinetuneOutcome :=
  if num_labels == 1 then .mseLoss
  else
    match self_num_labels with
    | none => .attributeError
    | some n => if 1 < n ∧ labels_dtype_is_int then .crossEntropyLoss else .bceLoss

/-! ## Generation parameter validation
(`MegatronEngine.megatron_generate`, lines 1213-1303)

The validation prefix of `megatron_generate` — everything up to and
including the beam-search batch-size test of line 1302, i.e. before any
tensor is built or any collective issued — is embedded as a pure function.
`inputs.shape[0]` is `batch_size`.  The `isinstance` checks on `add_BOS`,
`beam_width` and `stop_token` cannot fail in the typed embedding and the
unvalidated `length_penalty`/`stop_token` normalizations do not affect the
outcome, so they are omitted. -/

/-- The global `args` fields read by the validation prefix. -/
structure GenArgs where
  model_type_name : String
  data_parallel_size : Nat
  sequence_parallel : Bool
  recompute_granularity : Option String
  vocab_file : Option String
  deriving Repr, DecidableEq

/-- Outcome of the validation prefix: a raised `NotImplementedError`, a
raised `ValueError`, the plain `return` of an error-message string
(line 1303), or fall-through to the generation code with the normalized
`temperature`, `top_k`, `top_p` and `beam_width`. -/
inductive GenOutcome
  | notImplementedError (msg : String)
  | valueError (msg : String)
  | earlyReturn (msg : String)
  | proceed (temperature : ℚ) (top_k : Int) (top_p : ℚ) (beam_width : Option Int)
  deriving Repr, DecidableEq

/-- Whether the outcome is a raised configuration error. -/
def GenOutcome.raises_config_error : GenOutcome → Bool
  | .notImplementedError _ => true
  | .valueError _ => true
  | .earlyReturn _ => false
  | .proceed _ _ _ _ => false

/-- The validation prefix of `MegatronEngine.megatron_generate`
(lines 1246-1303), as an elif-chain over the optional call parameters.
Parameter names and the raised messages are the source's. -/
def megatron_generate_validate (args : GenArgs) (batch_size : Nat)
    (max_length max_new_tokens num_beams : Option Int)
    (temperature : Option ℚ) (top_k : Option Int)
    (top_p top_p_decay top_p_bound : Option ℚ) : GenOutcome :=
  if args.model_type_name ≠ "gpt" then
    .notImplementedError "Generate method is not implemented for this model"
  else if 1 < args.data_parallel_size then
    .valueError "Generate method requires data parallelism to be 1"
  else if args.sequence_parallel then
    .valueError "Generate method requires sequence parallelism to be False"
  else if args.recompute_granularity.isSome then
    .valueError "Checkpoint activations cannot be set for inference"
  else if args.vocab_file.isNone then
    .valueError "Vocab file is required for inference"
  else if max_length.isNone ∧ max_new_tokens.isNone then
    .valueError "`max_length` or `max_new_tokens` are required for inference"
  else
    -- temperature (lines 1266-1269)
    match (match temperature with
           | none => Except.ok (1 : ℚ)
           | some t =>
             if ¬ (0 < t ∧ t ≤ 100) then
               Except.error "temperature must be a positive number less than or equal to 100.0"
             else Except.ok t : Except String ℚ) with
    | .error m => .valueError m
    | .ok temperature =>
    -- top_k (lines 1271-1274)
    match (match top_k with
           | none => Except.ok (0 : Int)
           | some k =>
             if ¬ (0 ≤ k ∧ k ≤ 1000) then
               Except.error "top_k must be a positive number less than or equal to 1000"
             else Except.ok k : Except String Int) with
    | .error m => .valueError m
    | .ok top_k =>
    -- top_p (lines 1276-1282)
    match (match top_p with
           | none => Except.ok (0 : ℚ)
           | some p =>
             if 0 < p ∧ 0 < top_k then
               Except.error "top_p and top_k sampling cannot be set together"
             else if ¬ (0 ≤ p ∧ p ≤ 1) then
               Except.error "top_p must be less than or equal to 1.0"
             else Except.ok p : Except String ℚ) with
    | .error m => .valueError m
    | .ok top_p =>
    -- top_p_decay (lines 1284-1286), defaulting via kwargs.get to 0.0
    match (let d := top_p_decay.getD 0
           if ¬ (0 ≤ d ∧ d ≤ 1) then
             Except.error "top_p_decay must be less than or equal to 1.0"
           else Except.ok d : Except String ℚ) with
    | .error m => .valueError m
    | .ok _ =>
    -- top_p_bound (lines 1288-1290), defaulting via kwargs.get to 0.0
    match (let b := top_p_bound.getD 0
           if ¬ (0 ≤ b ∧ b ≤ 1) then
             Except.error "top_p_bound must be less than or equal to 1.0"
           else Except.ok b : Except String ℚ) with
    | .error m => .valueError m
    | .ok _ =>
    -- beam_width = num_beams (lines 1296-1303)
    match num_beams with
    | some beam_width =>
      if beam_width < 1 then .valueError "beam_width must be greater than 0"
      else if 1 < batch_size then .earlyReturn "When doing beam_search, batch size must be 1"
      else .proceed temperature top_k top_p (some beam_width)
    | none => .proceed temperature top_k top_p none

/-! ## Concrete inputs used by the witness theorems -/

/-- A concrete `[1, 2]` binary attention mask: `[[1, 0]]`. -/
def mask0 : Fin 1 → Fin 2 → ℚ :=
  fun _ j => if j = 0 then 1 else 0

/-- A concrete `args` namespace satisfying the generation preconditions. -/
def genArgs0 : GenArgs :=
  { model_type_name := "gpt", data_parallel_size := 1, sequence_parallel := false,
    recompute_granularity := none, vocab_file := some "vocab.json" }

/-- A concrete `args` namespace for the dataloader shim witnesses. -/
def dataArgs0 : DataArgs :=
  { megatron_dataset_flag := true, micro_batch_size := 8, num_micro_batches := 4,
    consumed_samples := none, consumed_train_samples := 0,
    consumed_valid_samples := 0, consumed_test_samples := 0 }

/-- Concrete per-microbatch loss dictionaries: two microbatches, a scalar
key `lm loss` and a tensor key `logits`. -/
def lossDicts0 : List (List (String × TVal)) :=
  [[("lm loss", .scalar 2), ("logits", .tensor [1, 2])],
   [("lm loss", .scalar 4), ("logits", .tensor [3])]]

/-! ## Theorems -/

/-- C5: the null-iterator stand-in is substituted exactly on a rank whose own
iterator is absent while the tensor-parallel source rank's iterator is
present, and from then on every `next` call returns the empty mapping — no
call, however late in the sequence, signals end-of-iteration. -/
theorem dummy_dataloader_yields_empty_forever :
    handle_megatron_data_iterator false false = some ()
    ∧ ∀ n, DummyMegatronDataloader.iterate n = some ([] : Batch) := by
  refine ⟨by decide, fun n => ?_⟩
  induction n with
  | zero => rfl
  | succ n ih =>
    simp [DummyMegatronDataloader.iterate, DummyMegatronDataloader.next, ih]

/-- C2: for a binary (0/1-valued) `[B, S]` attention mask, the `[B, S, S]`
tensor returned by `T5TrainStep.attn_mask_postprocess` (shape fixed by its
type) marks a position as allowed — entry `false`, the Megatron convention
for "not masked out" — exactly when both the column-broadcast entry
`mask[b, i]` and the row-broadcast entry `mask[b, j]` exceed the `0.5`
threshold, i.e. it is the pointwise negation of the AND of the two
thresholded broadcasts. -/
theorem attn_mask_postprocess_binary_and (B S : Nat) (mask : Fin B → Fin S → ℚ)
    (hbin : ∀ b s, mask b s = 0 ∨ mask b s = 1) (b : Fin B) (i j : Fin S) :
    (T5TrainStep.attn_mask_postprocess B S mask b i j = false ↔
      (1 / 2 : ℚ) < mask b i ∧ (1 / 2 : ℚ) < mask b j)
    ∧ T5TrainStep.attn_mask_postprocess B S mask b i j
        = !(decide ((1 / 2 : ℚ) < mask b i) && decide ((1 / 2 : ℚ) < mask b j)) := by
  rcases hbin b i with hi | hi <;> rcases hbin b j with hj | hj <;>
    · simp [T5TrainStep.attn_mask_postprocess, attention_mask_bss,
            attention_mask_b1s, attention_mask_bs1, hi, hj]
      all_goals norm_num

/-- Witness for C2 at the concrete mask `[[1, 0]]`. -/
theorem attn_mask_postprocess_binary_and_witness :
    (T5TrainStep.attn_mask_postprocess 1 2 mask0 0 0 0 = false ↔
      (1 / 2 : ℚ) < mask0 0 0 ∧ (1 / 2 : ℚ) < mask0 0 0)
    ∧ T5TrainStep.attn_mask_postprocess 1 2 mask0 0 0 0
        = !(decide ((1 / 2 : ℚ) < mask0 0 0) && decide ((1 / 2 : ℚ) < mask0 0 0)) :=
  attn_mask_postprocess_binary_and 1 2 mask0
    (by intro b s; fin_cases s <;> simp [mask0]) 0 0 0

/-- C3: saving a checkpoint and loading it back from the same path restores
the engine's iteration counter and its accumulated floating-point-operation
counter exactly (the external store is modelled from the spec, see
`CheckpointStore`). -/
theorem checkpoint_roundtrip_restores_counters (e : EngineCkptState)
    (dir : String) (s : CheckpointStore) :
    ∃ e2, MegatronEngine.load_checkpoint (MegatronEngine.save_checkpoint e dir s).1 dir
            (MegatronEngine.save_checkpoint e dir s).2 = some e2
      ∧ e2.iteration = e.iteration
      ∧ e2.num_floating_point_operations_so_far
          = e.num_floating_point_operations_so_far := by
  refine ⟨{ iteration := e.iteration,
            num_floating_point_operations_so_far :=
              e.num_floating_point_operations_so_far,
            consumed_train_samples := 0, consumed_valid_samples := 0,
            fp16 := e.fp16, save_path := some dir, load_path := some dir },
          ?_, rfl, rfl⟩
  simp [MegatronEngine.save_checkpoint, MegatronEngine.load_checkpoint]

/-- C4: after `MegatronEngine.train_step`, the optimizer wrapper's
`step_was_skipped` property is `true` exactly when the external routine's
skipped-iteration indicator equals 1. -/
theorem step_was_skipped_iff_skipped_iter_one (opt : OptimizerState)
    (ext : ExternTrainStepResult) :
    MegatronLMOptimizerWrapper.step_was_skipped (MegatronEngine.train_step opt ext).1 = true
      ↔ ext.skipped_iter = 1 := by
  simp [MegatronLMOptimizerWrapper.step_was_skipped, MegatronEngine.train_step]

/-- C6: in generic mode the rebuilt dataloader's effective batch size —
wherever it is stored among the three branch cases — equals
`micro_batch_size * num_micro_batches`, the inner preparation is called with
`split_batches = False` (no further splitting within the data-parallel
group), and in particular `micro_batch_size = 8` with `num_micro_batches = 4`
yields 32. -/
theorem prepare_data_loader_generic_batch_size :
    (∀ (args : DataArgs) (dl : DataloaderKind),
        (prepare_data_loader_generic args dl).kind.effective_batch_size
            = args.micro_batch_size * args.num_micro_batches
        ∧ (prepare_data_loader_generic args dl).split_batches = false)
    ∧ ∀ dl : DataloaderKind,
        (prepare_data_loader_generic
            { dataArgs0 with megatron_dataset_flag := false } dl).kind.effective_batch_size
          = 32 := by
  refine ⟨fun args dl => ?_, fun dl => ?_⟩ <;> cases dl <;>
    simp [prepare_data_loader_generic, DataloaderKind.effective_batch_size, dataArgs0]

/-- C9: native-mode `prepare_data_loader` multiplies the configured
`micro_batch_size` by `num_micro_batches` before the external iterator
builders run and floor-divides it back afterwards, so (for a positive
microbatch count, a division by zero otherwise) the configured value after
the call equals the value before it. -/
theorem prepare_data_loader_native_frame (args : DataArgs)
    (h : 0 < args.num_micro_batches) :
    (prepare_data_loader_native args).micro_batch_size = args.micro_batch_size := by
  cases hcs : args.consumed_samples with
  | none => simp [prepare_data_loader_native, hcs, Nat.mul_div_cancel _ h]
  | some r =>
    obtain ⟨t, v, te⟩ := r
    simp [prepare_data_loader_native, hcs, Nat.mul_div_cancel _ h]

/-- Witness for C9 at `micro_batch_size = 8`, `num_micro_batches = 4`. -/
theorem prepare_data_loader_native_frame_witness :
    (prepare_data_loader_native dataArgs0).micro_batch_size = 8 :=
  prepare_data_loader_native_frame dataArgs0 (by decide)

/-- C7: for every generic GPT batch of nonempty rows, the decoder-only batch
decoder returns `tokens` equal to the original `input_ids` (hence of the
same `[B, L]` shape), and `labels` of the same `[B, L]` shape equal to each
row shifted left by one with the end-of-document token appended — so the
last label of every row is the end-of-document token. -/
theorem get_batch_transformer_spec (eod : Int) (input_ids : List (List Int))
    (h : ∀ r ∈ input_ids, r ≠ []) :
    (get_batch_transformer eod input_ids).1 = input_ids
    ∧ (get_batch_transformer eod input_ids).2.map List.length
        = input_ids.map List.length
    ∧ (get_batch_transformer eod input_ids).2
        = input_ids.map (fun r => r.drop 1 ++ [eod])
    ∧ ∀ l ∈ (get_batch_transformer eod input_ids).2, l.getLast? = some eod := by
  have htok : (get_batch_transformer eod input_ids).1 = input_ids := by
    simp only [get_batch_transformer, gpt_tokens_ext, List.map_map]
    have heach : ∀ r ∈ input_ids, (List.dropLast ∘ fun row => row ++ [eod]) r = id r :=
      fun r _ => List.dropLast_concat
    rw [List.map_congr_left heach, List.map_id]
  have hlab : (get_batch_transformer eod input_ids).2
      = input_ids.map (fun r => r.drop 1 ++ [eod]) := by
    simp only [get_batch_transformer, gpt_tokens_ext, List.map_map]
    refine List.map_congr_left (fun r hr => ?_)
    cases r with
    | nil => exact absurd rfl (h [] hr)
    | cons a t => simp
  refine ⟨htok, ?_, hlab, ?_⟩
  · rw [hlab, List.map_map]
    refine List.map_congr_left (fun r hr => ?_)
    cases r with
    | nil => exact absurd rfl (h [] hr)
    | cons a t => simp
  · rw [hlab]
    intro l hl
    rw [List.mem_map] at hl
    obtain ⟨r, _, rfl⟩ := hl
    simp

/-- Witness for C7 at `eod = 99`, `input_ids = [[1, 2, 3], [4, 5, 6]]`. -/
theorem get_batch_transformer_spec_witness :
    (get_batch_transformer 99 [[1, 2, 3], [4, 5, 6]]).1 = [[1, 2, 3], [4, 5, 6]]
    ∧ (get_batch_transformer 99 [[1, 2, 3], [4, 5, 6]]).2.map List.length
        = [[1, 2, 3], [4, 5, 6]].map List.length
    ∧ (get_batch_transformer 99 [[1, 2, 3], [4, 5, 6]]).2
        = [[1, 2, 3], [4, 5, 6]].map (fun r => r.drop 1 ++ [99])
    ∧ ∀ l ∈ (get_batch_transformer 99 [[1, 2, 3], [4, 5, 6]]).2,
        l.getLast? = some 99 :=
  get_batch_transformer_spec 99 [[1, 2, 3], [4, 5, 6]] (by decide)

/-- C10: with the `num_labels` attribute absent from the `BertTrainStep`
object, every call of `loss_func_finetune` with closure parameter
`num_labels ≠ 1` reaches the `self.num_labels` read and raises
`AttributeError` before computing any loss, and consequently neither the
cross-entropy nor the binary-cross-entropy branch is ever reached. -/
theorem loss_func_finetune_attribute_error :
    (∀ (num_labels : Int), num_labels ≠ 1 → ∀ d : Bool,
        loss_func_finetune num_labels BertTrainStep.self_num_labels d
          = .attributeError)
    ∧ ∀ (num_labels : Int) (d : Bool),
        loss_func_finetune num_labels BertTrainStep.self_num_labels d
            ≠ .crossEntropyLoss
        ∧ loss_func_finetune num_labels BertTrainStep.self_num_labels d
            ≠ .bceLoss := by
  constructor
  · intro nl h d
    simp [loss_func_finetune, BertTrainStep.self_num_labels, h]
  · intro nl d
    by_cases h : nl = 1 <;>
      simp [loss_func_finetune, BertTrainStep.self_num_labels, h]

/-- Witness for C10 at `num_labels = 2`. -/
theorem loss_func_finetune_attribute_error_witness :
    loss_func_finetune 2 BertTrainStep.self_num_labels true = .attributeError :=
  loss_func_finetune_attribute_error.1 2 (by decide) true

/-- Helper: an `Option`-monadic `mapM` that succeeds preserves length. -/
lemma mapM_option_length {α β : Type} (f : α → Option β) :
    ∀ (l : List α) (l2 : List β), l.mapM f = some l2 → l2.length = l.length := by
  intro l
  induction l with
  | nil =>
    intro l2 hm
    rw [List.mapM_nil] at hm
    have : l2 = [] := by simpa using hm.symm
    simp [this]
  | cons a t ih =>
    intro l2 hm
    rw [List.mapM_cons] at hm
    cases ha : f a with
    | none => rw [ha] at hm; simp at hm
    | some x =>
      rw [ha] at hm
      cases ht : t.mapM f with
      | none => rw [ht] at hm; simp at hm
      | some xs =>
        rw [ht] at hm
        have : l2 = x :: xs := by simpa using hm.symm
        simp [this, ih xs ht]

/-- Helper: looking up `k` in the association list produced by a successful
`mapM` over a key list, when the producer tags every entry with its own key
and yields `(k, y)` at `k`. -/
lemma mapM_keyed_lookup (g : String → Option (String × TVal))
    (hg : ∀ k p, g k = some p → p.1 = k) :
    ∀ (ks : List String) (out : List (String × TVal)) (k : String) (y : TVal),
      ks.mapM g = some out → k ∈ ks → g k = some (k, y) →
      dict_get out k = some y := by
  intro ks
  induction ks with
  | nil => intro out k y _ hmem; simp at hmem
  | cons k0 ks ih =>
    intro out k y hmap hmem hk
    rw [List.mapM_cons] at hmap
    cases hg0 : g k0 with
    | none => rw [hg0] at hmap; simp at hmap
    | some p =>
      rw [hg0] at hmap
      cases hrest : ks.mapM g with
      | none => rw [hrest] at hmap; simp at hmap
      | some out2 =>
        rw [hrest] at hmap
        have hout : out = p :: out2 := by simpa using hmap.symm
        subst hout
        by_cases hkk : k0 = k
        · subst hkk
          rw [hg0] at hk
          injection hk with hp
          subst hp
          simp [dict_get]
        · have hp1 : p.1 = k0 := hg k0 p hg0
          have hmem2 : k ∈ ks := by
            rcases List.mem_cons.mp hmem with h | h
            · exact absurd h.symm hkk
            · exact h
          have hskip : dict_get (p :: out2) k = dict_get out2 k := by
            simp only [dict_get, List.find?]
            have : (p.1 == k) = false := by
              rw [hp1]; exact beq_false_of_ne hkk
            rw [this]
          rw [hskip]
          exact ih out2 k y hrest hmem2 hk

/-- Helper: `sum_scalars` extracts and sums an all-scalar value list. -/
lemma sum_scalars_map (xs : List ℚ) : sum_scalars (xs.map TVal.scalar) = xs.sum := by
  rw [sum_scalars, List.map_map,
      show ((fun v => match v with | TVal.scalar x => x | TVal.tensor _ => 0)
            ∘ TVal.scalar) = id from rfl,
      List.map_id]

/-- Helper: `concat_tensors` flattens an all-tensor value list. -/
lemma concat_tensors_map (ts : List (List ℚ)) :
    concat_tensors (ts.map TVal.tensor) = ts.flatten := by
  rw [concat_tensors, List.flatMap_map,
      show (fun a : List ℚ =>
          match TVal.tensor a with
          | TVal.tensor xs => xs
          | TVal.scalar x => [x]) = id from rfl]
  exact List.flatMap_id ts

/-- Helper: `reduce_key` on a nonempty all-scalar value list is the
arithmetic mean. -/
lemma reduce_key_scalars (xs : List ℚ) (h : xs ≠ []) :
    reduce_key (xs.map TVal.scalar) = .scalar (xs.sum / xs.length) := by
  cases xs with
  | nil => exact absurd rfl h
  | cons x t =>
    show TVal.scalar (sum_scalars ((x :: t).map TVal.scalar)
        / ((x :: t).map TVal.scalar).length) = _
    rw [sum_scalars_map, List.length_map]

/-- Helper: `reduce_key` on a nonempty all-tensor value list is the
concatenation. -/
lemma reduce_key_tensors (ts : List (List ℚ)) (h : ts ≠ []) :
    reduce_key (ts.map TVal.tensor) = .tensor ts.flatten := by
  cases ts with
  | nil => exact absurd rfl h
  | cons x t =>
    show TVal.tensor (concat_tensors ((x :: t).map TVal.tensor)) = _
    rw [concat_tensors_map]

/-- C8: `MegatronEngine.eval_step` returns the empty mapping on every rank
that is not the final pipeline stage; on the final pipeline stage, for every
key of the first microbatch's loss dictionary whose per-microbatch values
are all zero-dimensional scalars the returned mapping holds their arithmetic
mean, and for every key whose values are all tensors of at least one
dimension it holds their concatenation. -/
theorem eval_step_spec :
    (∀ loss_dicts, MegatronEngine.eval_step false loss_dicts = some [])
    ∧ (∀ (d0 : List (String × TVal)) (rest : List (List (String × TVal)))
        (k : String) (out : List (String × TVal)) (xs : List ℚ),
        MegatronEngine.eval_step true (d0 :: rest) = some out →
        (d0 :: rest).mapM (fun d => dict_get d k) = some (xs.map TVal.scalar) →
        k ∈ d0.map Prod.fst →
        dict_get out k = some (.scalar (xs.sum / xs.length)))
    ∧ (∀ (d0 : List (String × TVal)) (rest : List (List (String × TVal)))
        (k : String) (out : List (String × TVal)) (ts : List (List ℚ)),
        MegatronEngine.eval_step true (d0 :: rest) = some out →
        (d0 :: rest).mapM (fun d => dict_get d k) = some (ts.map TVal.tensor) →
        k ∈ d0.map Prod.fst →
        dict_get out k = some (.tensor ts.flatten)) := by
  refine ⟨fun loss_dicts => rfl, ?_, ?_⟩
  · intro d0 rest k out xs hstep hvals hmem
    simp only [MegatronEngine.eval_step, if_true] at hstep
    have hne : xs ≠ [] := by
      intro hxs
      have := mapM_option_length (fun d => dict_get d k) (d0 :: rest) _ hvals
      simp [hxs] at this
    have hgk : (fun k1 => ((d0 :: rest).mapM (fun d => dict_get d k1)).map
        (fun vs => (k1, reduce_key vs))) k
        = some (k, reduce_key (xs.map TVal.scalar)) := by
      show (((d0 :: rest).mapM (fun d => dict_get d k)).map
        (fun vs => (k, reduce_key vs))) = _
      rw [hvals]
      rfl
    have := mapM_keyed_lookup _
      (by intro k1 p hp
          rcases Option.map_eq_some.mp hp with ⟨vs, _, hvp⟩
          rw [← hvp])
      (d0.map Prod.fst) out k (reduce_key (xs.map TVal.scalar)) hstep hmem hgk
    rw [this, reduce_key_scalars xs hne]
  · intro d0 rest k out ts hstep hvals hmem
    simp only [MegatronEngine.eval_step, if_true] at hstep
    have hne : ts ≠ [] := by
      intro hts
      have := mapM_option_length (fun d => dict_get d k) (d0 :: rest) _ hvals
      simp [hts] at this
    have hgk : (fun k1 => ((d0 :: rest).mapM (fun d => dict_get d k1)).map
        (fun vs => (k1, reduce_key vs))) k
        = some (k, reduce_key (ts.map TVal.tensor)) := by
      show (((d0 :: rest).mapM (fun d => dict_get d k)).map
        (fun vs => (k, reduce_key vs))) = _
      rw [hvals]
      rfl
    have := mapM_keyed_lookup _
      (by intro k1 p hp
          rcases Option.map_eq_some.mp hp with ⟨vs, _, hvp⟩
          rw [← hvp])
      (d0.map Prod.fst) out k (reduce_key (ts.map TVal.tensor)) hstep hmem hgk
    rw [this, reduce_key_tensors ts hne]

/-- Witness for C8 on `lossDicts0`: `lm loss` averages to `(2 + 4)/2`,
`logits` concatenates to `[1, 2, 3]`. -/
theorem eval_step_spec_witness :
    MegatronEngine.eval_step false lossDicts0 = some []
    ∧ dict_get [("lm loss", TVal.scalar 3), ("logits", TVal.tensor [1, 2, 3])]
        "lm loss" = some (.scalar (([2, 4] : List ℚ).sum / ([2, 4] : List ℚ).length))
    ∧ dict_get [("lm loss", TVal.scalar 3), ("logits", TVal.tensor [1, 2, 3])]
        "logits" = some (.tensor ([[1, 2], [3]] : List (List ℚ)).flatten) :=
  ⟨eval_step_spec.1 lossDicts0,
   eval_step_spec.2.1 [("lm loss", TVal.scalar 2), ("logits", TVal.tensor [1, 2])]
     [[("lm loss", TVal.scalar 4), ("logits", TVal.tensor [3])]] "lm loss"
     [("lm loss", TVal.scalar 3), ("logits", TVal.tensor [1, 2, 3])] [2, 4]
     (by simp [MegatronEngine.eval_step, dict_get, reduce_key, sum_scalars,
               concat_tensors, List.mapM, List.mapM.loop, List.find?]
         norm_num)
     (by decide) (by decide),
   eval_step_spec.2.2 [("lm loss", TVal.scalar 2), ("logits", TVal.tensor [1, 2])]
     [[("lm loss", TVal.scalar 4), ("logits", TVal.tensor [3])]] "logits"
     [("lm loss", TVal.scalar 3), ("logits", TVal.tensor [1, 2, 3])] [[1, 2], [3]]
     (by simp [MegatronEngine.eval_step, dict_get, reduce_key, sum_scalars,
               concat_tensors, List.mapM, List.mapM.loop, List.find?]
         norm_num)
     (by decide) (by decide)⟩

/-- C1 counterexample: with every global generation precondition satisfied,
requesting beam search with `num_beams = 2` on an input batch of size 2 does
NOT raise a configuration error — `megatron_generate` returns the plain
string "When doing beam_search, batch size must be 1" instead. -/
theorem megatron_generate_beam_batch_returns_string :
    megatron_generate_validate genArgs0 2 (some 50) none (some 2) none none none
        none none
      = .earlyReturn "When doing beam_search, batch size must be 1"
    ∧ (megatron_generate_validate genArgs0 2 (some 50) none (some 2) none none none
        none none).raises_config_error = false := by
  exact ⟨rfl, rfl⟩

/-- C1 amended: under the global generation preconditions, `temperature = 0`
raises a `ValueError` and `temperature = 50` is accepted (temperature must
lie in `(0, 100]`); `top_k = 1500` raises a `ValueError` (`top_k` must lie
in `[0, 1000]`); `top_p = 0.9` together with `top_k = 10` raises a
`ValueError` (nonzero `top_p` and `top_k` are mutually exclusive); and beam
search with `num_beams = 2` on a batch of size 2 is rejected by RETURNING
the error-message string rather than raising. -/
theorem megatron_generate_validation_spec (args : GenArgs)
    (h1 : args.model_type_name = "gpt") (h2 : args.data_parallel_size = 1)
    (h3 : args.sequence_parallel = false) (h4 : args.recompute_granularity = none)
    (h5 : args.vocab_file ≠ none) :
    megatron_generate_validate args 1 (some 50) none none (some 0) none none
        none none
      = .valueError "temperature must be a positive number less than or equal to 100.0"
    ∧ megatron_generate_validate args 1 (some 50) none none (some 50) none none
        none none
      = .proceed 50 0 0 none
    ∧ megatron_generate_validate args 1 (some 50) none none none (some 1500) none
        none none
      = .valueError "top_k must be a positive number less than or equal to 1000"
    ∧ megatron_generate_validate args 1 (some 50) none none none (some 10)
        (some (9 / 10)) none none
      = .valueError "top_p and top_k sampling cannot be set together"
    ∧ megatron_generate_validate args 2 (some 50) none (some 2) none none none
        none none
      = .earlyReturn "When doing beam_search, batch size must be 1" := by
  obtain ⟨mt, dp, sp, rg, vf⟩ := args
  dsimp only at h1 h2 h3 h4 h5
  subst h1 h2 h3 h4
  cases vf with
  | none => exact absurd rfl h5
  | some v =>
    refine ⟨rfl, rfl, rfl, ?_, rfl⟩
    norm_num [megatron_generate_validate]

/-- Witness for C1 amended at the concrete `args` record `genArgs0`. -/
theorem megatron_generate_validation_spec_witness :
    megatron_generate_validate genArgs0 1 (some 50) none none (some 0) none none
        none none
      = .valueError "temperature must be a positive number less than or equal to 100.0"
    ∧ megatron_generate_validate genArgs0 1 (some 50) none none (some 50) none none
        none none
      = .proceed 50 0 0 none
    ∧ megatron_generate_validate genArgs0 1 (some 50) none none none (some 1500) none
        none none
      = .valueError "top_k must be a positive number less than or equal to 1000"
    ∧ megatron_generate_validate genArgs0 1 (some 50) none none none (some 10)
        (some (9 / 10)) none none
      = .valueError "top_p and top_k sampling cannot be set together"
    ∧ megatron_generate_validate genArgs0 2 (some 50) none (some 2) none none none
        none none
      = .earlyReturn "When doing beam_search, batch size must be 1" :=
  megatron_generate_validation_spec genArgs0 rfl rfl rfl rfl (by decide)

end MegatronLM
